import Mathlib

/-!
Verification of the Football-Data-Scraper backend (ingestion pipeline and
prediction engine) against its natural-language specification.

The TypeScript sources embedded here are:
  backend/src/services/DataService.ts        (ingestion, status mapping, upsert)
  backend/src/services/PredictionService.ts  (form and head-to-head aggregation,
                                              probability engine)
  backend/src/index.ts                        (startup sequence)
  backend/src/types/index.ts                  (data model, SUPPORTED_LEAGUES)
  database/schema.sql                         (matches table: id SERIAL PRIMARY KEY)

Numeric JavaScript values are embedded as exact rationals; every decimal
literal appearing in the source is an exactly representable rational, so the
clamp and complement identities proved below are the same identities the
floating-point program satisfies.
-/

/-- The five-state match status enum of `backend/src/types/index.ts` line 56. -/
inductive MatchStatus where
  | scheduled
  | live
  | finished
  | postponed
  | cancelled
deriving Repr, DecidableEq

/-- `DataService.mapFixtureStatus` (DataService.ts lines 280-289): the switch
over the source status vocabulary.  The grouped cases of the switch become
grouped disjunctions; the second `case 'PEN'` of the source is unreachable
(the first matching case wins) and therefore has no counterpart here. -/
def mapFixtureStatus (status : String) : MatchStatus :=
  if status = "NS" then .scheduled
  else if status = "1H" ∨ status = "2H" ∨ status = "HT" then .live
  else if status = "FT" ∨ status = "AET" ∨ status = "PEN" then .finished
  else if status = "PST" ∨ status = "CANC" then .cancelled
  else .scheduled

/-- The status codes that `mapFixtureStatus` recognizes explicitly; every
other code falls through to the default branch. -/
def knownStatusCodes : List String :=
  ["NS", "1H", "2H", "HT", "FT", "AET", "PEN", "PST", "CANC"]

/-- `TeamFormStats` (types/index.ts lines 163-173).  `homeAdvantage` and
`awayDisadvantage` are optional in the TypeScript interface, so they are
`Option ℚ` here: `none` embeds a field that is absent (undefined). -/
structure TeamFormStats where
  recentForm : List Char
  goalsScored : ℤ
  goalsConceded : ℤ
  cleanSheets : ℕ
  failedToScore : ℕ
  averageGoalsScored : ℚ
  averageGoalsConceded : ℚ
  homeAdvantage : Option ℚ
  awayDisadvantage : Option ℚ
deriving Repr, DecidableEq

/-- `HeadToHeadStats` (types/index.ts lines 175-183); the six counters are
naturals, `averageGoals` is the only fractional field. -/
structure HeadToHeadStats where
  totalMatches : ℕ
  homeWins : ℕ
  awayWins : ℕ
  draws : ℕ
  averageGoals : ℚ
  bothTeamsScored : ℕ
  over2_5Goals : ℕ
deriving Repr, DecidableEq

/-- The probability fields of a `Prediction` row (types/index.ts lines 87-104)
as written by `generateMatchPrediction` (PredictionService.ts lines 82-96).
`prediction_date` (the generation timestamp) is the only written field not
embedded, being a clock read with no claim about it. -/
structure Prediction where
  match_id : ℕ
  home_win_probability : ℚ
  draw_probability : ℚ
  away_win_probability : ℚ
  both_teams_score_probability : ℚ
  over_2_5_goals_probability : ℚ
  under_2_5_goals_probability : ℚ
  home_win_or_draw_probability : ℚ
  away_win_or_draw_probability : ℚ
  home_handicap_1_5_probability : ℚ
  away_handicap_1_5_probability : ℚ
  confidence_score : ℚ
deriving Repr, DecidableEq

/-- The per-position weight lookup of `calculateFormScore`
(PredictionService.ts line 377 and 381): `weights[index] || 0.01`; every
stored weight is nonzero (truthy), so the fallback fires exactly for
indices past the end of the array. -/
def formWeightAt (i : ℕ) : ℚ :=
  ([0.4, 0.3, 0.2, 0.08, 0.02] : List ℚ).getD i 0.01

/-- The switch inside the `forEach` of `calculateFormScore`
(PredictionService.ts lines 382-386): W adds the weight, D half of it, and
any other character (including L) adds nothing, the switch having no
default case. -/
def formResultContrib (result : Char) (weight : ℚ) : ℚ :=
  if result = 'W' then weight
  else if result = 'D' then weight * 0.5
  else 0

/-- The `forEach` accumulation of `calculateFormScore`, written as an
index-carrying recursion: position `i` of the remaining list is position
`k + i` of the original form sequence. -/
def formScoreAux : List Char → ℕ → ℚ
  | [], _ => 0
  | result :: rest, k => formResultContrib result (formWeightAt k) + formScoreAux rest (k + 1)

/-- `PredictionService.calculateFormScore` (PredictionService.ts lines
374-390): 0.5 for an empty form, otherwise the positionally weighted sum. -/
def calculateFormScore (form : List Char) : ℚ :=
  if form.isEmpty then 0.5
  else formScoreAux form 0

/-- `PredictionService.calculateFormConsistency` (PredictionService.ts lines
392-403): fraction of the form occupied by its most frequent outcome, 0.5
when fewer than two results are available. -/
def calculateFormConsistency (form : List Char) : ℚ :=
  if form.length < 2 then 0.5
  else
    let wins := (form.filter (fun r => r = 'W')).length
    let draws := (form.filter (fun r => r = 'D')).length
    let losses := (form.filter (fun r => r = 'L')).length
    let total := form.length
    let maxCategory := max wins (max draws losses)
    (maxCategory : ℚ) / (total : ℚ)

/-- `PredictionService.calculateHomeWinProbability` (PredictionService.ts
lines 260-288). -/
def calculateHomeWinProbability (homeStats awayStats : TeamFormStats)
    (h2h : HeadToHeadStats) : ℚ :=
  let homeFormWeight : ℚ := 0.4
  let awayFormWeight : ℚ := 0.3
  let h2hWeight : ℚ := 0.3
  let homeFormScore := calculateFormScore homeStats.recentForm
  let awayFormScore := calculateFormScore awayStats.recentForm
  let h2hFactor : ℚ :=
    if 0 < h2h.totalMatches then (h2h.homeWins : ℚ) / (h2h.totalMatches : ℚ) else 0.5
  let homeGoalsFactor := min 1 (homeStats.averageGoalsScored / 2)
  let awayGoalsFactor := max 0 (1 - awayStats.averageGoalsConceded / 2)
  let homeAdvantage : ℚ := 0.1
  let probability :=
    (homeFormWeight * homeFormScore +
     awayFormWeight * (1 - awayFormScore) +
     h2hWeight * h2hFactor +
     homeAdvantage +
     (homeGoalsFactor + awayGoalsFactor) * 0.1) /
    (homeFormWeight + awayFormWeight + h2hWeight + 0.1 + 0.2)
  max 0.1 (min 0.9 probability)

/-- `PredictionService.calculateAwayWinProbability` (PredictionService.ts
lines 290-316). -/
def calculateAwayWinProbability (homeStats awayStats : TeamFormStats)
    (h2h : HeadToHeadStats) : ℚ :=
  let homeFormWeight : ℚ := 0.3
  let awayFormWeight : ℚ := 0.4
  let h2hWeight : ℚ := 0.3
  let homeFormScore := calculateFormScore homeStats.recentForm
  let awayFormScore := calculateFormScore awayStats.recentForm
  let h2hFactor : ℚ :=
    if 0 < h2h.totalMatches then (h2h.awayWins : ℚ) / (h2h.totalMatches : ℚ) else 0.3
  let awayGoalsFactor := min 1 (awayStats.averageGoalsScored / 2)
  let homeGoalsFactor := max 0 (1 - homeStats.averageGoalsConceded / 2)
  let awayDisadvantage : ℚ := -0.05
  let probability :=
    (homeFormWeight * (1 - homeFormScore) +
     awayFormWeight * awayFormScore +
     h2hWeight * h2hFactor +
     awayDisadvantage +
     (awayGoalsFactor + homeGoalsFactor) * 0.1) /
    (homeFormWeight + awayFormWeight + h2hWeight + 0.05 + 0.2)
  max 0.05 (min 0.8 probability)

/-- `PredictionService.calculateBothTeamsScoreProbability`
(PredictionService.ts lines 318-335). -/
def calculateBothTeamsScoreProbability (homeStats awayStats : TeamFormStats)
    (h2h : HeadToHeadStats) : ℚ :=
  let homeScoringProb := min 1 (homeStats.averageGoalsScored / 1.5)
  let awayScoringProb := min 1 (awayStats.averageGoalsScored / 1.5)
  let homeConcedingProb := min 1 (homeStats.averageGoalsConceded / 1.5)
  let awayConcedingProb := min 1 (awayStats.averageGoalsConceded / 1.5)
  let h2hFactor : ℚ :=
    if 0 < h2h.totalMatches then (h2h.bothTeamsScored : ℚ) / (h2h.totalMatches : ℚ) else 0.6
  let probability :=
    (homeScoringProb * 0.3 +
     awayScoringProb * 0.3 +
     homeConcedingProb * 0.2 +
     awayConcedingProb * 0.2 +
     h2hFactor * 0.3) / 1.3
  max 0.2 (min 0.9 probability)

/-- `PredictionService.calculateOver2_5GoalsProbability`
(PredictionService.ts lines 337-346). -/
def calculateOver2_5GoalsProbability (homeStats awayStats : TeamFormStats)
    (h2h : HeadToHeadStats) : ℚ :=
  let totalAverageGoals := homeStats.averageGoalsScored + awayStats.averageGoalsScored
  let goalsFactor := min 1 (totalAverageGoals / 3)
  let h2hFactor : ℚ :=
    if 0 < h2h.totalMatches then (h2h.over2_5Goals : ℚ) / (h2h.totalMatches : ℚ) else 0.5
  let probability := (goalsFactor * 0.7 + h2hFactor * 0.3) / 1
  max 0.2 (min 0.9 probability)

/-- `PredictionService.calculateHandicapProbability` (PredictionService.ts
lines 348-352). -/
def calculateHandicapProbability (baseProbability handicap : ℚ) : ℚ :=
  let handicapFactor := handicap * 0.1
  max 0.1 (min 0.9 (baseProbability - handicapFactor))

/-- `PredictionService.calculateConfidenceScore` (PredictionService.ts lines
354-372). -/
def calculateConfidenceScore (homeStats awayStats : TeamFormStats)
    (h2h : HeadToHeadStats) : ℚ :=
  let homeFormConsistency := calculateFormConsistency homeStats.recentForm
  let awayFormConsistency := calculateFormConsistency awayStats.recentForm
  let h2hConfidence := min 1 ((h2h.totalMatches : ℚ) / 5)
  let confidence :=
    homeFormConsistency * 0.3 +
    awayFormConsistency * 0.3 +
    h2hConfidence * 0.4
  max 0.1 (min 1 confidence)

/-- The pure core of `PredictionService.generateMatchPrediction`
(PredictionService.ts lines 60-103): from the aggregated statistics to the
Prediction record built at lines 82-96. -/
def generateMatchPrediction (matchId : ℕ)
    (homeTeamStats awayTeamStats : TeamFormStats)
    (headToHead : HeadToHeadStats) : Prediction :=
  let homeWinProb := calculateHomeWinProbability homeTeamStats awayTeamStats headToHead
  let awayWinProb := calculateAwayWinProbability homeTeamStats awayTeamStats headToHead
  let drawProb := max 0 (1 - homeWinProb - awayWinProb)
  let bothTeamsScoreProb := calculateBothTeamsScoreProbability homeTeamStats awayTeamStats headToHead
  let over2_5GoalsProb := calculateOver2_5GoalsProbability homeTeamStats awayTeamStats headToHead
  let under2_5GoalsProb := max 0 (1 - over2_5GoalsProb)
  let confidenceScore := calculateConfidenceScore homeTeamStats awayTeamStats headToHead
  { match_id := matchId
    home_win_probability := homeWinProb
    draw_probability := drawProb
    away_win_probability := awayWinProb
    both_teams_score_probability := bothTeamsScoreProb
    over_2_5_goals_probability := over2_5GoalsProb
    under_2_5_goals_probability := under2_5GoalsProb
    home_win_or_draw_probability := homeWinProb + drawProb
    away_win_or_draw_probability := awayWinProb + drawProb
    home_handicap_1_5_probability := calculateHandicapProbability homeWinProb 1.5
    away_handicap_1_5_probability := calculateHandicapProbability awayWinProb 1.5
    confidence_score := confidenceScore }

/-- The fields of a stored matches row that the aggregator reads
(PredictionService.ts lines 124-252): team references and the two goal
counters of a FINISHED match. -/
structure StoredMatch where
  home_team_id : ℕ
  away_team_id : ℕ
  home_goals : ℤ
  away_goals : ℤ
deriving Repr, DecidableEq

/-- `PredictionService.getDefaultTeamStats` (PredictionService.ts lines
405-415); the literal omits `homeAdvantage` and `awayDisadvantage`. -/
def getDefaultTeamStats : TeamFormStats :=
  { recentForm := ['D', 'D', 'D', 'D', 'D']
    goalsScored := 0
    goalsConceded := 0
    cleanSheets := 0
    failedToScore := 0
    averageGoalsScored := 1.0
    averageGoalsConceded := 1.0
    homeAdvantage := none
    awayDisadvantage := none }

/-- `PredictionService.getDefaultHeadToHeadStats` (PredictionService.ts lines
417-427). -/
def getDefaultHeadToHeadStats : HeadToHeadStats :=
  { totalMatches := 0
    homeWins := 0
    awayWins := 0
    draws := 0
    averageGoals := 2.5
    bothTeamsScored := 0
    over2_5Goals := 0 }

/-- `PredictionService.getTeamFormStats` (PredictionService.ts lines
105-197), with the store query made explicit: `queryOutcome = none` embeds
the guard `error || !matches` firing (query error, or a null data payload),
and `queryOutcome = some ms` a successful query returning the list `ms`.
A successful query returning the empty list does NOT take the guard, since
an empty array is truthy in JavaScript; the body then runs on zero matches,
where the two averages are `0 / 0` (NaN in JavaScript; `0` under the Lean
division convention — the theorems below never depend on which junk value
the 0/0 averages take, only on the exactly computed fields such as
`recentForm`).  Division by a nonzero length is exact in both semantics. -/
def getTeamFormStats (queryOutcome : Option (List StoredMatch))
    (teamId : ℕ) (isHome : Bool) : TeamFormStats :=
  match queryOutcome with
  | none => getDefaultTeamStats
  | some matchList =>
    let teamMatches := matchList.filter
      (fun m => m.home_team_id = teamId ∨ m.away_team_id = teamId)
    let recentForm := (teamMatches.take 5).map (fun m =>
      let isHomeTeam := m.home_team_id = teamId
      let teamGoals := if isHomeTeam then m.home_goals else m.away_goals
      let opponentGoals := if isHomeTeam then m.away_goals else m.home_goals
      if teamGoals > opponentGoals then 'W'
      else if teamGoals < opponentGoals then 'L'
      else 'D')
    let goalsScored := teamMatches.foldl (fun total m =>
      total + (if m.home_team_id = teamId then m.home_goals else m.away_goals)) (0 : ℤ)
    let goalsConceded := teamMatches.foldl (fun total m =>
      total + (if m.home_team_id = teamId then m.away_goals else m.home_goals)) (0 : ℤ)
    let cleanSheets := (teamMatches.filter (fun m =>
      (if m.home_team_id = teamId then m.away_goals else m.home_goals) = 0)).length
    let failedToScore := (teamMatches.filter (fun m =>
      (if m.home_team_id = teamId then m.home_goals else m.away_goals) = 0)).length
    let averageGoalsScored := (goalsScored : ℚ) / (teamMatches.length : ℚ)
    let averageGoalsConceded := (goalsConceded : ℚ) / (teamMatches.length : ℚ)
    let homeMatches := teamMatches.filter (fun m => m.home_team_id = teamId)
    let awayMatches := teamMatches.filter (fun m => m.away_team_id = teamId)
    let homeAdvantage : ℚ :=
      if isHome ∧ 0 < homeMatches.length then
        ((homeMatches.foldl (fun total m => total + m.home_goals) 0 : ℤ) : ℚ) /
          (homeMatches.length : ℚ) - averageGoalsScored
      else 0
    let awayDisadvantage : ℚ :=
      if ¬isHome ∧ 0 < awayMatches.length then
        averageGoalsScored -
          ((awayMatches.foldl (fun total m => total + m.away_goals) 0 : ℤ) : ℚ) /
            (awayMatches.length : ℚ)
      else 0
    { recentForm := recentForm
      goalsScored := goalsScored
      goalsConceded := goalsConceded
      cleanSheets := cleanSheets
      failedToScore := failedToScore
      averageGoalsScored := averageGoalsScored
      averageGoalsConceded := averageGoalsConceded
      homeAdvantage := some homeAdvantage
      awayDisadvantage := some awayDisadvantage }

/-- `PredictionService.getHeadToHeadStats` (PredictionService.ts lines
199-258), with the store query made explicit exactly as in
`getTeamFormStats`: the guard `error || !matches` is `none`; a successful
empty result list is `some []` and runs the body, where the average-goals
ternary at line 250 yields 0. -/
def getHeadToHeadStats (queryOutcome : Option (List StoredMatch))
    (homeTeamId : ℕ) (awayTeamId : ℕ) : HeadToHeadStats :=
  match queryOutcome with
  | none => getDefaultHeadToHeadStats
  | some matchList =>
    let orientedHomeGoals := fun (m : StoredMatch) =>
      if m.home_team_id = homeTeamId then m.home_goals else m.away_goals
    let orientedAwayGoals := fun (m : StoredMatch) =>
      if m.home_team_id = homeTeamId then m.away_goals else m.home_goals
    let totalMatches := matchList.length
    let homeWins := (matchList.filter (fun m => orientedHomeGoals m > orientedAwayGoals m)).length
    let awayWins := (matchList.filter (fun m => orientedAwayGoals m > orientedHomeGoals m)).length
    let draws := (matchList.filter (fun m => orientedHomeGoals m = orientedAwayGoals m)).length
    let totalGoals := matchList.foldl
      (fun total m => total + orientedHomeGoals m + orientedAwayGoals m) 0
    let bothTeamsScored := (matchList.filter (fun m =>
      0 < orientedHomeGoals m ∧ 0 < orientedAwayGoals m)).length
    let over2_5Goals := (matchList.filter (fun m =>
      (2.5 : ℚ) < ((orientedHomeGoals m + orientedAwayGoals m : ℤ) : ℚ))).length
    { totalMatches := totalMatches
      homeWins := homeWins
      awayWins := awayWins
      draws := draws
      averageGoals := if 0 < totalMatches then ((totalGoals : ℤ) : ℚ) / (totalMatches : ℚ) else 0
      bothTeamsScored := bothTeamsScored
      over2_5Goals := over2_5Goals }

/-- The slice of a source fixture payload that `updateMatches` reads
(DataService.ts lines 184-204): `fixture.fixture.*`, `fixture.league.id`,
`fixture.teams.*`, `fixture.goals.*`, `fixture.score.*`. -/
structure Fixture where
  fixtureId : ℕ
  date : String
  referee : Option String
  venueId : Option ℕ
  leagueId : ℕ
  homeTeamId : ℕ
  awayTeamId : ℕ
  goalsHome : Option ℤ
  goalsAway : Option ℤ
  halftimeHome : Option ℤ
  halftimeAway : Option ℤ
  fulltimeHome : Option ℤ
  fulltimeAway : Option ℤ
  extratimeHome : Option ℤ
  extratimeAway : Option ℤ
  penaltyHome : Option ℤ
  penaltyAway : Option ℤ
  statusShort : String
  elapsed : Option ℕ
deriving Repr, DecidableEq

/-- The object literal built for each fixture by `updateMatches`
(DataService.ts lines 185-204).  It has exactly these properties: in
particular it has NO `id` property — `fixture.fixture.id` is read only for
the error-log message at line 212, never written into the row. -/
structure MatchPayload where
  date : String
  referee : Option String
  venue_id : Option ℕ
  league_id : ℕ
  home_team_id : ℕ
  away_team_id : ℕ
  home_goals : Option ℤ
  away_goals : Option ℤ
  home_score_halftime : Option ℤ
  away_score_halftime : Option ℤ
  home_score_fulltime : Option ℤ
  away_score_fulltime : Option ℤ
  home_score_extratime : Option ℤ
  away_score_extratime : Option ℤ
  home_score_penalty : Option ℤ
  away_score_penalty : Option ℤ
  status : MatchStatus
  elapsed : Option ℕ
deriving Repr, DecidableEq

/-- The row construction of `updateMatches` (DataService.ts lines 185-204),
field for field. -/
def buildMatchRow (fixture : Fixture) : MatchPayload :=
  { date := fixture.date
    referee := fixture.referee
    venue_id := fixture.venueId
    league_id := fixture.leagueId
    home_team_id := fixture.homeTeamId
    away_team_id := fixture.awayTeamId
    home_goals := fixture.goalsHome
    away_goals := fixture.goalsAway
    home_score_halftime := fixture.halftimeHome
    away_score_halftime := fixture.halftimeAway
    home_score_fulltime := fixture.fulltimeHome
    away_score_fulltime := fixture.fulltimeAway
    home_score_extratime := fixture.extratimeHome
    away_score_extratime := fixture.extratimeAway
    home_score_penalty := fixture.penaltyHome
    away_score_penalty := fixture.penaltyAway
    status := mapFixtureStatus fixture.statusShort
    elapsed := fixture.elapsed }

/-- The `matches` table (schema.sql line 44): rows keyed by the
`id SERIAL PRIMARY KEY` column, together with the sequence counter that
backs the SERIAL default. -/
structure MatchesTable where
  rows : List (ℕ × MatchPayload)
  nextId : ℕ
deriving Repr, DecidableEq

/-- The empty `matches` table with the serial sequence at its start. -/
def emptyMatchesTable : MatchesTable := { rows := [], nextId := 1 }

/-- Store semantics of `supabase.from('matches').upsert([row],
{ onConflict: 'id' })` — PostgreSQL `INSERT ... ON CONFLICT (id) DO UPDATE`
against `id SERIAL PRIMARY KEY` (schema.sql line 45).  A payload that
carries an `id` updates the existing row with that id (or inserts under it);
a payload that omits the `id` column is assigned the next serial value, so
the conflict target can never fire and the statement is a plain insert. -/
def upsertMatchesById (table : MatchesTable) (payloadId : Option ℕ)
    (payload : MatchPayload) : MatchesTable :=
  match payloadId with
  | some i =>
    if table.rows.any (fun r => r.1 = i) then
      { table with rows := table.rows.map (fun r => if r.1 = i then (i, payload) else r) }
    else
      { rows := table.rows ++ [(i, payload)], nextId := max table.nextId (i + 1) }
  | none =>
    { rows := table.rows ++ [(table.nextId, payload)], nextId := table.nextId + 1 }

/-- One iteration of the fixture loop of `updateMatches` (DataService.ts
lines 184-214): build the row and upsert it.  The payload passed to the
upsert has no `id` property, hence `payloadId = none`. -/
def ingestFixture (table : MatchesTable) (fixture : Fixture) : MatchesTable :=
  upsertMatchesById table none (buildMatchRow fixture)

/-- `LeagueConfig` (types/index.ts lines 214-221). -/
structure LeagueConfig where
  id : ℕ
  name : String
  country : String
  apiId : ℕ
  active : Bool
  priority : ℕ
deriving Repr, DecidableEq

/-- `SUPPORTED_LEAGUES` (types/index.ts lines 223-235). -/
def SUPPORTED_LEAGUES : List LeagueConfig :=
  [ { id := 1, name := "Premier League", country := "England", apiId := 39, active := true, priority := 1 },
    { id := 2, name := "La Liga", country := "Spain", apiId := 140, active := true, priority := 1 },
    { id := 3, name := "Serie A", country := "Italy", apiId := 135, active := true, priority := 1 },
    { id := 4, name := "Bundesliga", country := "Germany", apiId := 78, active := true, priority := 1 },
    { id := 5, name := "Ligue 1", country := "France", apiId := 61, active := true, priority := 1 },
    { id := 6, name := "Brasileirão", country := "Brazil", apiId := 71, active := true, priority := 2 },
    { id := 7, name := "UEFA Champions League", country := "Europe", apiId := 2, active := true, priority := 1 },
    { id := 8, name := "Club World Cup", country := "World", apiId := 73, active := true, priority := 3 },
    { id := 9, name := "Veikkausliiga", country := "Finland", apiId := 106, active := true, priority := 3 },
    { id := 10, name := "Eliteserien", country := "Norway", apiId := 103, active := true, priority := 3 },
    { id := 11, name := "Allsvenskan", country := "Sweden", apiId := 113, active := true, priority := 3 } ]

/-- The environment variables the startup sequence reads; the empty string
embeds a variable that is unset (matching the falsiness checks of the
source: `!supabaseUrl`, `!supabaseKey`, and `process.env.API_FOOTBALL_KEY
|| ''` followed by `!this.apiKey`). -/
structure Env where
  supabaseUrl : String
  supabaseKey : String
  apiFootballKey : String
deriving Repr, DecidableEq

/-- Observable startup events: process exit, an error log line, an attempted
fetch of a league from the data source, and the server starting to listen. -/
inductive StartupEvent where
  | exitProcess
  | logError (msg : String)
  | leagueFetch (apiId : ℕ)
  | serverListen
deriving Repr, DecidableEq

/-- The startup control flow of `backend/src/index.ts` lines 46-189 together
with the `DataService` constructor (DataService.ts lines 20-28) and
`initialize`/`updateAllData` (lines 30-70): missing Supabase variables log
an error and call `process.exit(1)` before any service is built; a missing
API-Football key is only logged by the constructor, after which
`startServer` → `dataService.initialize()` → `updateAllData()` iterates the
active supported leagues and attempts a data-source fetch for each
(`updateLeagueData`, whose request errors are caught and logged internally,
so the loop always reaches every league), and the HTTP server then starts
listening. -/
def startupTrace (env : Env) : List StartupEvent :=
  if env.supabaseUrl = "" ∨ env.supabaseKey = "" then
    [.logError "Missing Supabase environment variables", .exitProcess]
  else
    (if env.apiFootballKey = "" then
      [.logError "API Football key not found in environment variables"]
    else []) ++
    (SUPPORTED_LEAGUES.filter (fun l => l.active)).map (fun l => .leagueFetch l.apiId) ++
    [.serverListen]

/-- The positional weight table as the specification words it (claim C9):
0.4, 0.3, 0.2, 0.08, 0.02 for positions 0-4 and 0.01 beyond. -/
def specPositionWeight (i : ℕ) : ℚ :=
  if i = 0 then 0.4
  else if i = 1 then 0.3
  else if i = 2 then 0.2
  else if i = 3 then 0.08
  else if i = 4 then 0.02
  else 0.01

/-- The per-outcome contribution as the specification words it: a W at
position i contributes the full positional weight, a D half that weight,
and an L zero. -/
def specOutcomeContrib (c : Char) (i : ℕ) : ℚ :=
  if c = 'W' then specPositionWeight i
  else if c = 'D' then specPositionWeight i / 2
  else 0

/-- The specification formula for the form score: the sum over all positions
of the per-outcome contributions.  (Stated from the specification words, to
be compared against `calculateFormScore`, which embeds the source.) -/
def formScoreSpecSum (form : List Char) : ℚ :=
  ((List.range form.length).map (fun i => specOutcomeContrib (form.getD i 'L') i)).sum

/-- A concrete finished-fixture payload, used to evaluate the ingestion path
on explicit input. -/
def sampleFixture : Fixture :=
  { fixtureId := 868023
    date := "2025-08-15T19:00:00+00:00"
    referee := some "M. Oliver"
    venueId := some 556
    leagueId := 39
    homeTeamId := 33
    awayTeamId := 40
    goalsHome := some 2
    goalsAway := some 1
    halftimeHome := some 1
    halftimeAway := some 0
    fulltimeHome := some 2
    fulltimeAway := some 1
    extratimeHome := none
    extratimeAway := none
    penaltyHome := none
    penaltyAway := none
    statusShort := "FT"
    elapsed := some 90 }

/-! Helper lemmas shared by the claim theorems. -/

lemma le_max_min (lo hi x : ℚ) : lo ≤ max lo (min hi x) := le_max_left _ _

lemma max_min_le {lo hi : ℚ} (h : lo ≤ hi) (x : ℚ) : max lo (min hi x) ≤ hi :=
  max_le h (min_le_left _ _)

lemma homeWinProbability_range (hs as : TeamFormStats) (h2h : HeadToHeadStats) :
    0.1 ≤ calculateHomeWinProbability hs as h2h ∧
      calculateHomeWinProbability hs as h2h ≤ 0.9 := by
  unfold calculateHomeWinProbability
  exact ⟨le_max_min _ _ _, max_min_le (by norm_num) _⟩

lemma awayWinProbability_range (hs as : TeamFormStats) (h2h : HeadToHeadStats) :
    0.05 ≤ calculateAwayWinProbability hs as h2h ∧
      calculateAwayWinProbability hs as h2h ≤ 0.8 := by
  unfold calculateAwayWinProbability
  exact ⟨le_max_min _ _ _, max_min_le (by norm_num) _⟩

lemma bothTeamsScoreProbability_range (hs as : TeamFormStats) (h2h : HeadToHeadStats) :
    0.2 ≤ calculateBothTeamsScoreProbability hs as h2h ∧
      calculateBothTeamsScoreProbability hs as h2h ≤ 0.9 := by
  unfold calculateBothTeamsScoreProbability
  exact ⟨le_max_min _ _ _, max_min_le (by norm_num) _⟩

lemma over2_5GoalsProbability_range (hs as : TeamFormStats) (h2h : HeadToHeadStats) :
    0.2 ≤ calculateOver2_5GoalsProbability hs as h2h ∧
      calculateOver2_5GoalsProbability hs as h2h ≤ 0.9 := by
  unfold calculateOver2_5GoalsProbability
  exact ⟨le_max_min _ _ _, max_min_le (by norm_num) _⟩

lemma handicapProbability_range (b h : ℚ) :
    0.1 ≤ calculateHandicapProbability b h ∧ calculateHandicapProbability b h ≤ 0.9 := by
  unfold calculateHandicapProbability
  exact ⟨le_max_min _ _ _, max_min_le (by norm_num) _⟩

lemma confidenceScore_range (hs as : TeamFormStats) (h2h : HeadToHeadStats) :
    0.1 ≤ calculateConfidenceScore hs as h2h ∧ calculateConfidenceScore hs as h2h ≤ 1 := by
  unfold calculateConfidenceScore
  exact ⟨le_max_min _ _ _, max_min_le (by norm_num) _⟩

lemma generate_home_win_proj (m : ℕ) (hs as : TeamFormStats) (h2h : HeadToHeadStats) :
    (generateMatchPrediction m hs as h2h).home_win_probability =
      calculateHomeWinProbability hs as h2h := rfl

lemma generate_away_win_proj (m : ℕ) (hs as : TeamFormStats) (h2h : HeadToHeadStats) :
    (generateMatchPrediction m hs as h2h).away_win_probability =
      calculateAwayWinProbability hs as h2h := rfl

lemma generate_draw_proj (m : ℕ) (hs as : TeamFormStats) (h2h : HeadToHeadStats) :
    (generateMatchPrediction m hs as h2h).draw_probability =
      max 0 (1 - calculateHomeWinProbability hs as h2h - calculateAwayWinProbability hs as h2h) := rfl

lemma generate_over_proj (m : ℕ) (hs as : TeamFormStats) (h2h : HeadToHeadStats) :
    (generateMatchPrediction m hs as h2h).over_2_5_goals_probability =
      calculateOver2_5GoalsProbability hs as h2h := rfl

lemma generate_under_proj (m : ℕ) (hs as : TeamFormStats) (h2h : HeadToHeadStats) :
    (generateMatchPrediction m hs as h2h).under_2_5_goals_probability =
      max 0 (1 - calculateOver2_5GoalsProbability hs as h2h) := rfl

lemma generate_home_or_draw_proj (m : ℕ) (hs as : TeamFormStats) (h2h : HeadToHeadStats) :
    (generateMatchPrediction m hs as h2h).home_win_or_draw_probability =
      calculateHomeWinProbability hs as h2h +
        max 0 (1 - calculateHomeWinProbability hs as h2h - calculateAwayWinProbability hs as h2h) := rfl

lemma generate_away_or_draw_proj (m : ℕ) (hs as : TeamFormStats) (h2h : HeadToHeadStats) :
    (generateMatchPrediction m hs as h2h).away_win_or_draw_probability =
      calculateAwayWinProbability hs as h2h +
        max 0 (1 - calculateHomeWinProbability hs as h2h - calculateAwayWinProbability hs as h2h) := rfl

lemma mapFixtureStatus_cases (s : String) :
    (mapFixtureStatus s = .scheduled ∨ mapFixtureStatus s = .live ∨
      mapFixtureStatus s = .finished ∨ mapFixtureStatus s = .cancelled) ∧
    mapFixtureStatus s ≠ .postponed := by
  unfold mapFixtureStatus
  split_ifs <;> simp

/-- Claim C2 (counterexample): the claim says the source status code "PST"
maps to POSTPONED; in the code `mapFixtureStatus "PST"` is CANCELLED (the
switch groups PST with CANC), so the claim fails at the concrete input
"PST". -/
theorem mapFixtureStatus_pst_is_cancelled_not_postponed :
    mapFixtureStatus "PST" = MatchStatus.cancelled ∧
    mapFixtureStatus "PST" ≠ MatchStatus.postponed := by
  decide

/-- Claim C2 (amended): the ingestion status mapping sends "HT" to LIVE,
"FT" to FINISHED, "PST" to CANCELLED, and every code outside the nine
recognized ones to SCHEDULED. -/
theorem mapFixtureStatus_code_mapping :
    mapFixtureStatus "HT" = MatchStatus.live ∧
    mapFixtureStatus "FT" = MatchStatus.finished ∧
    mapFixtureStatus "PST" = MatchStatus.cancelled ∧
    ∀ s : String, s ∉ knownStatusCodes → mapFixtureStatus s = MatchStatus.scheduled := by
  refine ⟨by decide, by decide, by decide, ?_⟩
  intro s hs
  unfold mapFixtureStatus
  split_ifs with h1 h2 h3 h4
  · exact absurd (by subst h1; decide) hs
  · rcases h2 with h | h | h <;> exact absurd (by subst h; decide) hs
  · rcases h3 with h | h | h <;> exact absurd (by subst h; decide) hs
  · rcases h4 with h | h <;> exact absurd (by subst h; decide) hs
  · rfl

/-- Witness for C2: the unrecognized code "TBD" is outside the recognized
list and maps to SCHEDULED, by the amended theorem applied at "TBD". -/
theorem mapFixtureStatus_unrecognized_witness :
    "TBD" ∉ knownStatusCodes ∧ mapFixtureStatus "TBD" = MatchStatus.scheduled :=
  ⟨by decide, mapFixtureStatus_code_mapping.2.2.2 "TBD" (by decide)⟩

/-- Claim C10: every match row built by the ingestion pipeline carries one of
the four statuses SCHEDULED, LIVE, FINISHED, CANCELLED and never POSTPONED —
`mapFixtureStatus` (the sole writer of the status field in `updateMatches`)
cannot produce POSTPONED for any source status code. -/
theorem ingested_status_never_postponed (f : Fixture) :
    ((buildMatchRow f).status = MatchStatus.scheduled ∨
      (buildMatchRow f).status = MatchStatus.live ∨
      (buildMatchRow f).status = MatchStatus.finished ∨
      (buildMatchRow f).status = MatchStatus.cancelled) ∧
    (buildMatchRow f).status ≠ MatchStatus.postponed := by
  have h : (buildMatchRow f).status = mapFixtureStatus f.statusShort := rfl
  rw [h]
  exact mapFixtureStatus_cases f.statusShort

/-- Claim C4 (code bug, evaluated at the failing input): ingesting the same
fixture payload twice inserts two distinct rows (serial ids 1 and 2) instead
of leaving one row — the object literal of `updateMatches` omits the `id`
column, so `onConflict: 'id'` never fires against the SERIAL primary key and
every upsert is a plain insert. -/
theorem ingest_same_fixture_twice_two_rows :
    ((ingestFixture (ingestFixture emptyMatchesTable sampleFixture) sampleFixture).rows.map
        Prod.fst) = [1, 2] ∧
    (ingestFixture (ingestFixture emptyMatchesTable sampleFixture) sampleFixture).rows.length
      ≠ 1 := by
  decide

/-- Claim C3 (code bug, evaluated at the failing input): a successful query
returning the empty list does not produce the documented default object —
an empty JavaScript array is truthy, so the guard `error || !matches` does
not fire and the body runs on zero matches, returning an empty recent form
(and 0/0 averages, NaN in JavaScript) instead of the 5×'D' neutral default;
the default is returned only when the query errors or the data is null. -/
theorem getTeamFormStats_empty_success_not_default :
    (getTeamFormStats (some []) 1 true).recentForm = [] ∧
    getTeamFormStats (some []) 1 true ≠ getDefaultTeamStats ∧
    getTeamFormStats none 1 true = getDefaultTeamStats := by
  refine ⟨rfl, ?_, rfl⟩
  intro h
  have : (getTeamFormStats (some []) 1 true).recentForm = getDefaultTeamStats.recentForm := by
    rw [h]
  simp [getDefaultTeamStats] at this
  exact absurd this (by decide)

/-- Claim C5 (counterexample): when the head-to-head query succeeds with an
empty list the code returns `averageGoals = 0` (the ternary guard at line
250), not the 2.5 of the documented neutral default — the default object is
returned only on a failed query or null data. -/
theorem getHeadToHeadStats_empty_success_avg_zero :
    (getHeadToHeadStats (some []) 1 2).averageGoals = 0 ∧
    getHeadToHeadStats (some []) 1 2 ≠ getDefaultHeadToHeadStats := by
  refine ⟨rfl, ?_⟩
  intro h
  have h0 : (getHeadToHeadStats (some []) 1 2).averageGoals = 0 := rfl
  rw [h] at h0
  norm_num [getDefaultHeadToHeadStats] at h0

/-- Claim C5 (amended): for any team pair, a successful head-to-head query
returning no matches yields the all-zero statistics (totalMatches 0, all
counts 0, averageGoals 0), while the neutral default with averageGoals 2.5
is returned exactly when the query fails or returns null data. -/
theorem getHeadToHeadStats_empty_vs_failure (a b : ℕ) :
    getHeadToHeadStats (some []) a b =
      { totalMatches := 0, homeWins := 0, awayWins := 0, draws := 0,
        averageGoals := 0, bothTeamsScored := 0, over2_5Goals := 0 } ∧
    getHeadToHeadStats none a b = getDefaultHeadToHeadStats :=
  ⟨rfl, rfl⟩

/-- Claim C1: for every input (any form statistics and any head-to-head
statistics), every clamped probability field written to the Prediction
record lies within its documented clamp range: home win in [0.1, 0.9], away
win in [0.05, 0.8], both-teams-score in [0.2, 0.9], over-2.5-goals in
[0.2, 0.9], both handicap-1.5 fields in [0.1, 0.9], and the confidence
score in [0.1, 1]. -/
theorem prediction_probabilities_within_clamp_ranges
    (m : ℕ) (hs as : TeamFormStats) (h2h : HeadToHeadStats) :
    (0.1 ≤ (generateMatchPrediction m hs as h2h).home_win_probability ∧
      (generateMatchPrediction m hs as h2h).home_win_probability ≤ 0.9) ∧
    (0.05 ≤ (generateMatchPrediction m hs as h2h).away_win_probability ∧
      (generateMatchPrediction m hs as h2h).away_win_probability ≤ 0.8) ∧
    (0.2 ≤ (generateMatchPrediction m hs as h2h).both_teams_score_probability ∧
      (generateMatchPrediction m hs as h2h).both_teams_score_probability ≤ 0.9) ∧
    (0.2 ≤ (generateMatchPrediction m hs as h2h).over_2_5_goals_probability ∧
      (generateMatchPrediction m hs as h2h).over_2_5_goals_probability ≤ 0.9) ∧
    (0.1 ≤ (generateMatchPrediction m hs as h2h).home_handicap_1_5_probability ∧
      (generateMatchPrediction m hs as h2h).home_handicap_1_5_probability ≤ 0.9) ∧
    (0.1 ≤ (generateMatchPrediction m hs as h2h).away_handicap_1_5_probability ∧
      (generateMatchPrediction m hs as h2h).away_handicap_1_5_probability ≤ 0.9) ∧
    (0.1 ≤ (generateMatchPrediction m hs as h2h).confidence_score ∧
      (generateMatchPrediction m hs as h2h).confidence_score ≤ 1) := by
  refine ⟨homeWinProbability_range hs as h2h,
          awayWinProbability_range hs as h2h,
          bothTeamsScoreProbability_range hs as h2h,
          over2_5GoalsProbability_range hs as h2h,
          handicapProbability_range _ _,
          handicapProbability_range _ _,
          confidenceScore_range hs as h2h⟩

/-- Claim C6: the stored under-2.5-goals probability equals one minus the
stored over-2.5-goals probability exactly — the `max 0` guard at line 77 is
inert because the over probability is clamped to at most 0.9, so its
complement is at least 0.1. -/
theorem under_eq_one_sub_over (m : ℕ) (hs as : TeamFormStats) (h2h : HeadToHeadStats) :
    (generateMatchPrediction m hs as h2h).under_2_5_goals_probability =
      1 - (generateMatchPrediction m hs as h2h).over_2_5_goals_probability := by
  rw [generate_under_proj, generate_over_proj]
  have h := (over2_5GoalsProbability_range hs as h2h).2
  rw [max_eq_right (by linarith)]

lemma winOrDraw_le_one (m : ℕ) (hs as : TeamFormStats) (h2h : HeadToHeadStats) :
    (generateMatchPrediction m hs as h2h).home_win_or_draw_probability ≤ 1 ∧
    (generateMatchPrediction m hs as h2h).away_win_or_draw_probability ≤ 1 := by
  rw [generate_home_or_draw_proj, generate_away_or_draw_proj]
  have hh := homeWinProbability_range hs as h2h
  have ha := awayWinProbability_range hs as h2h
  set h := calculateHomeWinProbability hs as h2h with hdef
  set a := calculateAwayWinProbability hs as h2h with adef
  rcases le_total (1 - h - a) 0 with hle | hle
  · rw [max_eq_left hle]
    constructor <;> linarith [hh.2, ha.2]
  · rw [max_eq_right hle]
    constructor <;> linarith [hh.1, ha.1]

/-- Claim C7 (counterexample, stated as the negation of the existential):
there is no input at all for which home-win-or-draw or away-win-or-draw
exceeds 1 — the draw probability is the residual `max 0 (1 − home − away)`,
so home + draw = max(home, 1 − away) ≤ 0.95 and away + draw =
max(away, 1 − home) ≤ 0.9. -/
theorem no_input_makes_win_or_draw_exceed_one :
    ¬ ∃ (m : ℕ) (hs as : TeamFormStats) (h2h : HeadToHeadStats),
      1 < (generateMatchPrediction m hs as h2h).home_win_or_draw_probability ∨
      1 < (generateMatchPrediction m hs as h2h).away_win_or_draw_probability := by
  rintro ⟨m, hs, as, h2h, hcase | hcase⟩
  · exact absurd hcase (not_lt.mpr (winOrDraw_le_one m hs as h2h).1)
  · exact absurd hcase (not_lt.mpr (winOrDraw_le_one m hs as h2h).2)

/-- Claim C7 (amended): for every input, home-win-or-draw and
away-win-or-draw are both at most 1; the edge case the specification leaves
open cannot occur because the draw probability is the clamped residual of
the two win probabilities. -/
theorem win_or_draw_probabilities_le_one
    (m : ℕ) (hs as : TeamFormStats) (h2h : HeadToHeadStats) :
    (generateMatchPrediction m hs as h2h).home_win_or_draw_probability ≤ 1 ∧
    (generateMatchPrediction m hs as h2h).away_win_or_draw_probability ≤ 1 :=
  winOrDraw_le_one m hs as h2h

/-- Claim C8 (counterexample): with the store credentials present but the
data-source API key missing, the startup sequence still attempts a league
fetch (Premier League, api id 39) and never exits — the DataService
constructor only logs the missing key; only the Supabase variables are
checked fatally. -/
theorem missing_api_key_does_not_halt :
    StartupEvent.leagueFetch 39 ∈
      startupTrace { supabaseUrl := "https://example.supabase.co",
                     supabaseKey := "anon-key", apiFootballKey := "" } ∧
    StartupEvent.exitProcess ∉
      startupTrace { supabaseUrl := "https://example.supabase.co",
                     supabaseKey := "anon-key", apiFootballKey := "" } := by
  decide

/-- Claim C8 (amended): the startup sequence halts before any ingestion work
exactly when a store credential (Supabase URL or key) is missing; a missing
data-source API key is only logged, and the process goes on to attempt a
fetch for every active league. -/
theorem startup_halts_only_on_missing_store_credentials (env : Env) :
    (env.supabaseUrl = "" ∨ env.supabaseKey = "" →
      StartupEvent.exitProcess ∈ startupTrace env ∧
        ∀ a : ℕ, StartupEvent.leagueFetch a ∉ startupTrace env) ∧
    (env.supabaseUrl ≠ "" → env.supabaseKey ≠ "" →
      StartupEvent.exitProcess ∉ startupTrace env ∧
        StartupEvent.leagueFetch 39 ∈ startupTrace env) := by
  constructor
  · intro h
    unfold startupTrace
    rw [if_pos h]
    refine ⟨by simp, ?_⟩
    intro a
    simp
  · intro h1 h2
    unfold startupTrace
    rw [if_neg (by tauto)]
    by_cases hk : env.apiFootballKey = "" <;>
      simp [hk, SUPPORTED_LEAGUES]

/-- Witness for C8: applying the amended theorem at concrete environments —
a missing Supabase URL halts the process, while a complete environment does
not. -/
theorem startup_halts_witness :
    StartupEvent.exitProcess ∈
      startupTrace { supabaseUrl := "", supabaseKey := "k", apiFootballKey := "key" } ∧
    StartupEvent.exitProcess ∉
      startupTrace { supabaseUrl := "u", supabaseKey := "k", apiFootballKey := "key" } :=
  ⟨((startup_halts_only_on_missing_store_credentials
      { supabaseUrl := "", supabaseKey := "k", apiFootballKey := "key" }).1
        (Or.inl rfl)).1,
   ((startup_halts_only_on_missing_store_credentials
      { supabaseUrl := "u", supabaseKey := "k", apiFootballKey := "key" }).2
        (by decide) (by decide)).1⟩

lemma formWeightAt_eq_spec (i : ℕ) : formWeightAt i = specPositionWeight i := by
  match i with
  | 0 => rfl
  | 1 => rfl
  | 2 => rfl
  | 3 => rfl
  | 4 => rfl
  | n + 5 => rfl

lemma formResultContrib_eq_spec (c : Char) (i : ℕ) :
    formResultContrib c (formWeightAt i) = specOutcomeContrib c i := by
  unfold formResultContrib specOutcomeContrib
  rw [formWeightAt_eq_spec]
  split_ifs <;> ring

lemma formScoreAux_eq_sum (form : List Char) :
    ∀ k, formScoreAux form k =
      ((List.range form.length).map
        (fun i => formResultContrib (form.getD i 'L') (formWeightAt (k + i)))).sum := by
  induction form with
  | nil => intro k; simp [formScoreAux]
  | cons c rest ih =>
    intro k
    rw [formScoreAux, List.length_cons, List.range_succ_eq_map, List.map_cons, List.sum_cons,
        List.map_map]
    congr 1
    rw [ih (k + 1)]
    congr 1
    apply List.map_congr_left
    intro i _
    show formResultContrib (rest.getD i 'L') (formWeightAt ((k + 1) + i)) =
      formResultContrib ((c :: rest).getD (Nat.succ i) 'L') (formWeightAt (k + Nat.succ i))
    have harith : (k + 1) + i = k + Nat.succ i := by omega
    rw [harith]
    rfl

lemma calculateFormScore_eq_specSum (form : List Char) (hne : form ≠ []) :
    calculateFormScore form = formScoreSpecSum form := by
  unfold calculateFormScore formScoreSpecSum
  rw [if_neg (by simpa using hne)]
  rw [formScoreAux_eq_sum form 0]
  simp only [Nat.zero_add, formResultContrib_eq_spec]

/-- Claim C9: the form score of an empty sequence is 0.5; the form score of
five wins is the full sum of the five positional weights
0.4 + 0.3 + 0.2 + 0.08 + 0.02, which is exactly 1; and in general (for any
nonempty W/D/L sequence) the form score is the positional sum in which a W
contributes its full positional weight (0.4, 0.3, 0.2, 0.08, 0.02, and 0.01
beyond position 4), a D half that weight, and an L zero. -/
theorem formScore_empty_five_wins_and_weights :
    calculateFormScore [] = 0.5 ∧
    calculateFormScore ['W', 'W', 'W', 'W', 'W'] = 0.4 + 0.3 + 0.2 + 0.08 + 0.02 ∧
    (0.4 + 0.3 + 0.2 + 0.08 + 0.02 : ℚ) = 1 ∧
    ∀ form : List Char, form ≠ [] →
      (∀ c ∈ form, c = 'W' ∨ c = 'D' ∨ c = 'L') →
      calculateFormScore form = formScoreSpecSum form := by
  refine ⟨rfl,
    by norm_num [calculateFormScore, formScoreAux, formResultContrib, formWeightAt],
    by norm_num, ?_⟩
  intro form hne _
  exact calculateFormScore_eq_specSum form hne

/-- Witness for C9: the general positional-sum form applied at the concrete
form W, D, L, whose score evaluates to 0.4 + 0.15 + 0 = 0.55. -/
theorem formScore_spec_witness :
    calculateFormScore ['W', 'D', 'L'] = formScoreSpecSum ['W', 'D', 'L'] ∧
    calculateFormScore ['W', 'D', 'L'] = 0.55 :=
  ⟨formScore_empty_five_wins_and_weights.2.2.2 ['W', 'D', 'L'] (by decide) (by decide),
   by
    have hDW : (('D' : Char) = 'W') = False := eq_false (by decide)
    have hLW : (('L' : Char) = 'W') = False := eq_false (by decide)
    have hLD : (('L' : Char) = 'D') = False := eq_false (by decide)
    norm_num [calculateFormScore, formScoreAux, formResultContrib, formWeightAt, hDW, hLW, hLD]⟩
